import Mathlib

/-!
Verification of the configuration-provisioning component of
WeatherSense9001-CrowPanel7.

The repository ships a single credentials header, `secrets.h`, whose
preprocessor constants are embedded below verbatim.  The specification
describes a `ConfigurationProvider` with operations `load()` and `get()`;
that logic is absent from the source tree (the header holds constants
only), so those operations are modelled from the specification text and
checked against it and against the shipped constants.
-/

namespace WeatherSense

/-- Constant from secrets.h line 4: the WiFi SSID placeholder. -/
def SECRET_WIFISSID : String := "your WiFi SSID"

/-- Constant from secrets.h line 5: the WiFi password placeholder. -/
def SECRET_WIFIPASS : String := "your WiFi password"

/-- Constant from secrets.h line 7: the SensorPush API login ID placeholder. -/
def SECRET_SP_LOGINID : String := "your SensorPush API login ID"

/-- Constant from secrets.h line 8: the SensorPush API password placeholder. -/
def SECRET_SP_PASS : String := "your SensorPush API password"

/-- Constant from secrets.h line 10: the SensorPush sensor 1 ID placeholder. -/
def SECRET_SP_SENSOR1_ID : String := "your SensorPush Sensor 1 ID"

/-- Constant from secrets.h line 11: the SensorPush sensor 2 ID placeholder. -/
def SECRET_SP_SENSOR2_ID : String := "your SensorPush Sensor 2 ID"

/-- Constant from secrets.h line 12: the SensorPush sensor 3 ID placeholder. -/
def SECRET_SP_SENSOR3_ID : String := "your SensorPush Sensor 3 ID"

/-- Constant from secrets.h line 14: the ThingSpeak channel number.  In the
source this preprocessor definition expands to the bare token sequence
`<your ThingSpeak channel number>`, not to a string or a numeral; it is
embedded here as the raw character sequence it expands to. -/
def SECRET_TS_CHANNEL_ID_raw : String := "<your ThingSpeak channel number>"

/-- Constant from secrets.h line 15: the ThingSpeak write API key placeholder. -/
def SECRET_TS_WRITE_APIKEY : String := "your ThingSpeak write API key"

/-- Modelled from the spec: interpretation of a raw channel-ID token as an
unsigned integer — the value of its decimal digits when the token is a
non-empty all-digit sequence, nothing otherwise (spec section 3:
`telemetryChannelId`: unsigned integer).  Missing from src/: the source
only defines the raw constant. -/
def channelTokenNumeric (s : String) : Option Nat :=
  if s.data ≠ [] ∧ s.data.all (fun c => c.isDigit) then
    some (s.data.foldl (fun n c => 10 * n + (c.toNat - 48)) 0)
  else none

/-- Modelled from the spec: whether a raw channel-ID token denotes a positive
unsigned integer, the validity condition of spec section 3 (`> 0`). -/
def channelTokenPositive (s : String) : Bool :=
  match channelTokenNumeric s with
  | some n => decide (0 < n)
  | none => false

/-- Modelled from the spec: the input to `load()` — one supplied value per
configuration field of spec section 3.  Missing from src/: no such record
exists in the source, which holds only the shipped constants. -/
structure ConfigInput where
  wifiSsid : String
  wifiPassword : String
  sensorApiLoginId : String
  sensorApiPassword : String
  sensorId1 : String
  sensorId2 : String
  sensorId3 : String
  telemetryChannelId : Int
  telemetryWriteApiKey : String
deriving DecidableEq

/-- Modelled from the spec: the validated `ConfigurationRecord` of spec
section 3, the sole entity of the data model. -/
structure ConfigurationRecord where
  wifiSsid : String
  wifiPassword : String
  sensorApiLoginId : String
  sensorApiPassword : String
  sensorId1 : String
  sensorId2 : String
  sensorId3 : String
  telemetryChannelId : Int
  telemetryWriteApiKey : String
deriving DecidableEq

/-- Modelled from the spec: the error taxonomy of spec section 7. -/
inductive ConfigError where
  | PlaceholderValueDetected (fieldName : String)
  | EmptyRequiredField (fieldName : String)
  | InvalidNumericField (fieldName : String)
deriving DecidableEq

/-- The text-valued configuration fields, in the documented order of spec
sections 3 and 6.  The numeric channel ID is handled separately. -/
inductive Field where
  | wifiSsid
  | wifiPassword
  | sensorApiLoginId
  | sensorApiPassword
  | sensorId1
  | sensorId2
  | sensorId3
  | telemetryWriteApiKey
deriving DecidableEq

/-- The external name of a field, as used in error values. -/
def Field.name : Field → String
  | .wifiSsid => "wifiSsid"
  | .wifiPassword => "wifiPassword"
  | .sensorApiLoginId => "sensorApiLoginId"
  | .sensorApiPassword => "sensorApiPassword"
  | .sensorId1 => "sensorId1"
  | .sensorId2 => "sensorId2"
  | .sensorId3 => "sensorId3"
  | .telemetryWriteApiKey => "telemetryWriteApiKey"

/-- The documented placeholder string of each text field: exactly the
corresponding shipped constant of secrets.h. -/
def Field.placeholder : Field → String
  | .wifiSsid => SECRET_WIFISSID
  | .wifiPassword => SECRET_WIFIPASS
  | .sensorApiLoginId => SECRET_SP_LOGINID
  | .sensorApiPassword => SECRET_SP_PASS
  | .sensorId1 => SECRET_SP_SENSOR1_ID
  | .sensorId2 => SECRET_SP_SENSOR2_ID
  | .sensorId3 => SECRET_SP_SENSOR3_ID
  | .telemetryWriteApiKey => SECRET_TS_WRITE_APIKEY

/-- Whether a text field is required to be non-empty (spec sections 3 and 6:
every text field except the WiFi password, which may be empty for an open
network). -/
def Field.required : Field → Bool
  | .wifiPassword => false
  | _ => true

/-- Position of a field in the documented order (spec sections 3 and 6). -/
def Field.idx : Field → Nat
  | .wifiSsid => 0
  | .wifiPassword => 1
  | .sensorApiLoginId => 2
  | .sensorApiPassword => 3
  | .sensorId1 => 4
  | .sensorId2 => 5
  | .sensorId3 => 6
  | .telemetryWriteApiKey => 7

/-- The supplied value of a text field of an input. -/
def ConfigInput.field (i : ConfigInput) : Field → String
  | .wifiSsid => i.wifiSsid
  | .wifiPassword => i.wifiPassword
  | .sensorApiLoginId => i.sensorApiLoginId
  | .sensorApiPassword => i.sensorApiPassword
  | .sensorId1 => i.sensorId1
  | .sensorId2 => i.sensorId2
  | .sensorId3 => i.sensorId3
  | .telemetryWriteApiKey => i.telemetryWriteApiKey

/-- The record carrying exactly the supplied input values. -/
def recordOf (i : ConfigInput) : ConfigurationRecord :=
  ⟨i.wifiSsid, i.wifiPassword, i.sensorApiLoginId, i.sensorApiPassword,
   i.sensorId1, i.sensorId2, i.sensorId3, i.telemetryChannelId,
   i.telemetryWriteApiKey⟩

/-- Modelled from the spec: `load()` of spec section 4.1.  Missing from
src/: the source defines no logic.  Validation follows the documented
order of sections 4.1 and 7: first no field equals its documented
placeholder string (fields in the order of section 3), then required
fields are non-empty, then the channel ID is a positive integer; the
first detected error is returned (section 7). -/
def load (i : ConfigInput) : Except ConfigError ConfigurationRecord :=
  if i.wifiSsid = SECRET_WIFISSID then
    .error (.PlaceholderValueDetected "wifiSsid")
  else if i.wifiPassword = SECRET_WIFIPASS then
    .error (.PlaceholderValueDetected "wifiPassword")
  else if i.sensorApiLoginId = SECRET_SP_LOGINID then
    .error (.PlaceholderValueDetected "sensorApiLoginId")
  else if i.sensorApiPassword = SECRET_SP_PASS then
    .error (.PlaceholderValueDetected "sensorApiPassword")
  else if i.sensorId1 = SECRET_SP_SENSOR1_ID then
    .error (.PlaceholderValueDetected "sensorId1")
  else if i.sensorId2 = SECRET_SP_SENSOR2_ID then
    .error (.PlaceholderValueDetected "sensorId2")
  else if i.sensorId3 = SECRET_SP_SENSOR3_ID then
    .error (.PlaceholderValueDetected "sensorId3")
  else if i.telemetryWriteApiKey = SECRET_TS_WRITE_APIKEY then
    .error (.PlaceholderValueDetected "telemetryWriteApiKey")
  else if i.wifiSsid = "" then
    .error (.EmptyRequiredField "wifiSsid")
  else if i.sensorApiLoginId = "" then
    .error (.EmptyRequiredField "sensorApiLoginId")
  else if i.sensorApiPassword = "" then
    .error (.EmptyRequiredField "sensorApiPassword")
  else if i.sensorId1 = "" then
    .error (.EmptyRequiredField "sensorId1")
  else if i.sensorId2 = "" then
    .error (.EmptyRequiredField "sensorId2")
  else if i.sensorId3 = "" then
    .error (.EmptyRequiredField "sensorId3")
  else if i.telemetryWriteApiKey = "" then
    .error (.EmptyRequiredField "telemetryWriteApiKey")
  else if i.telemetryChannelId ≤ 0 then
    .error (.InvalidNumericField "telemetryChannelId")
  else
    .ok (recordOf i)

/-- The ordered list of failed checks of an input, in the documented check
order of spec sections 4.1 and 7: placeholder checks in field order, then
emptiness checks of required fields in field order, then the numeric
channel check. -/
def checkErrors (i : ConfigInput) : List ConfigError :=
  (if i.wifiSsid = SECRET_WIFISSID then
    [ConfigError.PlaceholderValueDetected "wifiSsid"] else []) ++
  (if i.wifiPassword = SECRET_WIFIPASS then
    [ConfigError.PlaceholderValueDetected "wifiPassword"] else []) ++
  (if i.sensorApiLoginId = SECRET_SP_LOGINID then
    [ConfigError.PlaceholderValueDetected "sensorApiLoginId"] else []) ++
  (if i.sensorApiPassword = SECRET_SP_PASS then
    [ConfigError.PlaceholderValueDetected "sensorApiPassword"] else []) ++
  (if i.sensorId1 = SECRET_SP_SENSOR1_ID then
    [ConfigError.PlaceholderValueDetected "sensorId1"] else []) ++
  (if i.sensorId2 = SECRET_SP_SENSOR2_ID then
    [ConfigError.PlaceholderValueDetected "sensorId2"] else []) ++
  (if i.sensorId3 = SECRET_SP_SENSOR3_ID then
    [ConfigError.PlaceholderValueDetected "sensorId3"] else []) ++
  (if i.telemetryWriteApiKey = SECRET_TS_WRITE_APIKEY then
    [ConfigError.PlaceholderValueDetected "telemetryWriteApiKey"] else []) ++
  (if i.wifiSsid = "" then
    [ConfigError.EmptyRequiredField "wifiSsid"] else []) ++
  (if i.sensorApiLoginId = "" then
    [ConfigError.EmptyRequiredField "sensorApiLoginId"] else []) ++
  (if i.sensorApiPassword = "" then
    [ConfigError.EmptyRequiredField "sensorApiPassword"] else []) ++
  (if i.sensorId1 = "" then
    [ConfigError.EmptyRequiredField "sensorId1"] else []) ++
  (if i.sensorId2 = "" then
    [ConfigError.EmptyRequiredField "sensorId2"] else []) ++
  (if i.sensorId3 = "" then
    [ConfigError.EmptyRequiredField "sensorId3"] else []) ++
  (if i.telemetryWriteApiKey = "" then
    [ConfigError.EmptyRequiredField "telemetryWriteApiKey"] else []) ++
  (if i.telemetryChannelId ≤ 0 then
    [ConfigError.InvalidNumericField "telemetryChannelId"] else [])

/-- The outcome dictated by the ordered check list: the first failed check
when one exists, the validated record otherwise. -/
def firstOutcome (i : ConfigInput) : Except ConfigError ConfigurationRecord :=
  match checkErrors i with
  | [] => .ok (recordOf i)
  | e :: _ => .error e

/-- Modelled from the spec: whether a record satisfies every validation
condition of spec sections 3, 4.1 and 6 (no placeholder, required fields
non-empty, positive channel ID). -/
def validated (r : ConfigurationRecord) : Bool :=
  (r.wifiSsid != SECRET_WIFISSID) &&
  (r.wifiPassword != SECRET_WIFIPASS) &&
  (r.sensorApiLoginId != SECRET_SP_LOGINID) &&
  (r.sensorApiPassword != SECRET_SP_PASS) &&
  (r.sensorId1 != SECRET_SP_SENSOR1_ID) &&
  (r.sensorId2 != SECRET_SP_SENSOR2_ID) &&
  (r.sensorId3 != SECRET_SP_SENSOR3_ID) &&
  (r.telemetryWriteApiKey != SECRET_TS_WRITE_APIKEY) &&
  (r.wifiSsid != "") &&
  (r.sensorApiLoginId != "") &&
  (r.sensorApiPassword != "") &&
  (r.sensorId1 != "") &&
  (r.sensorId2 != "") &&
  (r.sensorId3 != "") &&
  (r.telemetryWriteApiKey != "") &&
  decide (0 < r.telemetryChannelId)

/-- Modelled from the spec: the provider's state, holding the validated
record once `load()` has succeeded and nothing before (spec section 4.1:
`load()` is the only way to obtain a `ConfigurationRecord`). -/
structure ProviderState where
  record : Option ConfigurationRecord
deriving DecidableEq

/-- The state before any `load()` has succeeded. -/
def initialState : ProviderState := ⟨none⟩

/-- Modelled from the spec: `get()` of spec section 4.1, the read accessor
over the provider's state. -/
def get (s : ProviderState) : Option ConfigurationRecord :=
  s.record

/-- Modelled from the spec: running `load()` against the provider's state —
a successful load installs the validated record, a failed load changes
nothing and surfaces the error (spec section 7). -/
def loadState (i : ConfigInput) (s : ProviderState) :
    ProviderState × Except ConfigError ConfigurationRecord :=
  match load i with
  | .ok r => (⟨some r⟩, .ok r)
  | .error e => (s, .error e)

/-- Modelled from the spec: the input assembled from the shipped constants
of secrets.h, the channel-ID field taking an arbitrary numeric reading `c`
of the non-numeric shipped token. -/
def shippedInput (c : Int) : ConfigInput :=
  ⟨SECRET_WIFISSID, SECRET_WIFIPASS, SECRET_SP_LOGINID, SECRET_SP_PASS,
   SECRET_SP_SENSOR1_ID, SECRET_SP_SENSOR2_ID, SECRET_SP_SENSOR3_ID, c,
   SECRET_TS_WRITE_APIKEY⟩

/-- Input for the C1 counterexample: both the WiFi SSID and the sensor-API
login ID hold their placeholders; the other fields are valid. -/
def c1Bad : ConfigInput :=
  ⟨SECRET_WIFISSID, "pw12345678", SECRET_SP_LOGINID, "sp-pass",
   "A1", "B2", "C3", 7, "KEY"⟩

/-- Input for the C1 witness: only the WiFi SSID holds its placeholder. -/
def c1PlaceholderInput : ConfigInput :=
  ⟨SECRET_WIFISSID, "pw12345678", "login", "sp-pass", "A1", "B2", "C3", 7, "KEY"⟩

/-- Input for the C2 counterexample: the WiFi SSID holds its placeholder
and the sensor-API login ID is empty. -/
def c2Bad : ConfigInput :=
  ⟨SECRET_WIFISSID, "pw12345678", "", "sp-pass", "A1", "B2", "C3", 7, "KEY"⟩

/-- Input for the C2 witness: only the WiFi SSID is empty. -/
def c2EmptyInput : ConfigInput :=
  ⟨"", "pw12345678", "login", "sp-pass", "A1", "B2", "C3", 7, "KEY"⟩

/-- Input for the C3 counterexample: the channel ID is zero but the WiFi
SSID also holds its placeholder. -/
def c3Bad : ConfigInput :=
  ⟨SECRET_WIFISSID, "pw12345678", "login", "sp-pass", "A1", "B2", "C3", 0, "KEY"⟩

/-- Input for the C3 witness: all text fields valid, channel ID zero. -/
def c3ZeroInput : ConfigInput :=
  ⟨"HomeNet", "pw12345678", "login", "sp-pass", "A1", "B2", "C3", 0, "KEY"⟩

/-- Input for the C4 witness: the documented scenario — SSID "HomeNet",
password "pass1234", all other fields valid. -/
def c4GoodInput : ConfigInput :=
  ⟨"HomeNet", "pass1234", "user@example.com", "sp-secret", "S1", "S2", "S3",
   123456, "APIKEY123"⟩

/-- Input for the C5 witness: the WiFi SSID holds its placeholder, so
`load` fails. -/
def c5Bad : ConfigInput :=
  ⟨SECRET_WIFISSID, "pw12345678", "login5", "sp-pass5", "A5", "B5", "C5", 5, "KEY5"⟩

/-- Modelled from the spec: the operations available to collaborators after
construction — reads only (spec section 3: the record is read by the
WiFi-join, sensor-API-auth and telemetry-upload collaborators and never
mutated). -/
inductive ReadOp where
  | getRecord

/-- A collaborator's read against the provider state: it returns the held
record and leaves the state as it was. -/
def applyRead : ReadOp → ProviderState → ProviderState × Option ConfigurationRecord
  | .getRecord, s => (s, get s)

/-- The results of a sequence of reads, each applied to the state left by
the one before. -/
def runReads : ProviderState → List ReadOp → List (Option ConfigurationRecord)
  | _, [] => []
  | s, op :: ops => (applyRead op s).2 :: runReads (applyRead op s).1 ops

/-- Modelled from the spec: the observable world around the provider — its
state together with network and I/O logs that would record any such access
(spec section 4.1: side effects none beyond reading the embedded
constants; no network or I/O access). -/
structure World where
  provider : ProviderState
  networkLog : List String
  ioLog : List String

/-- Modelled from the spec: `load()` run inside the world.  Its result is
computed from the input and the embedded constants alone; no component of
the world is touched. -/
def loadWorld (i : ConfigInput) (w : World) :
    World × Except ConfigError ConfigurationRecord :=
  (w, load i)

/-- Modelled from the spec: the provider states reachable in a run — the
initial empty state followed by any sequence of `load` calls and
collaborator reads. -/
inductive Reachable : ProviderState → Prop where
  | init : Reachable initialState
  | loadStep (i : ConfigInput) {s : ProviderState} :
      Reachable s → Reachable (loadState i s).1
  | readStep (op : ReadOp) {s : ProviderState} :
      Reachable s → Reachable (applyRead op s).1

/-- Input for the C8 witness: all fields valid. -/
def c8GoodInput : ConfigInput :=
  ⟨"Net8", "pw12345678", "login8", "pass8", "A8", "B8", "C8", 8, "KEY8"⟩

/-- Claim C1, counterexample to the statement as given: with the WiFi SSID
and the sensor-API login ID both holding their placeholders, the login-ID
field equals its documented placeholder string, yet `load` does not fail
naming `sensorApiLoginId` — it names `wifiSsid`, the first field in the
documented order that holds its placeholder. -/
theorem c1_counterexample :
    c1Bad.field Field.sensorApiLoginId = Field.placeholder Field.sensorApiLoginId ∧
    load c1Bad ≠ .error (.PlaceholderValueDetected (Field.name Field.sensorApiLoginId)) ∧
    load c1Bad = .error (.PlaceholderValueDetected "wifiSsid") := by
  refine ⟨rfl, ?_, ?_⟩ <;> simp [load, c1Bad, Field.name]

/-- Claim C1 (amended): if a field's supplied value equals its documented
placeholder string and no field earlier in the documented order holds its
placeholder, then `load` fails with `PlaceholderValueDetected` naming that
field; in particular, for input wifiSsid = "your WiFi SSID", `load` returns
`PlaceholderValueDetected "wifiSsid"` whatever the other fields hold. -/
theorem c1_placeholder_detected (i : ConfigInput) (f : Field)
    (hf : i.field f = f.placeholder)
    (hearlier : ∀ g : Field, g.idx < f.idx → i.field g ≠ g.placeholder) :
    load i = .error (.PlaceholderValueDetected (f.name)) := by
  cases f with
  | wifiSsid =>
    simp only [ConfigInput.field, Field.placeholder] at hf
    simp [load, Field.name, hf]
  | wifiPassword =>
    have e0 := hearlier Field.wifiSsid (by decide)
    simp only [ConfigInput.field, Field.placeholder] at hf e0
    simp [load, Field.name, hf, e0]
  | sensorApiLoginId =>
    have e0 := hearlier Field.wifiSsid (by decide)
    have e1 := hearlier Field.wifiPassword (by decide)
    simp only [ConfigInput.field, Field.placeholder] at hf e0 e1
    simp [load, Field.name, hf, e0, e1]
  | sensorApiPassword =>
    have e0 := hearlier Field.wifiSsid (by decide)
    have e1 := hearlier Field.wifiPassword (by decide)
    have e2 := hearlier Field.sensorApiLoginId (by decide)
    simp only [ConfigInput.field, Field.placeholder] at hf e0 e1 e2
    simp [load, Field.name, hf, e0, e1, e2]
  | sensorId1 =>
    have e0 := hearlier Field.wifiSsid (by decide)
    have e1 := hearlier Field.wifiPassword (by decide)
    have e2 := hearlier Field.sensorApiLoginId (by decide)
    have e3 := hearlier Field.sensorApiPassword (by decide)
    simp only [ConfigInput.field, Field.placeholder] at hf e0 e1 e2 e3
    simp [load, Field.name, hf, e0, e1, e2, e3]
  | sensorId2 =>
    have e0 := hearlier Field.wifiSsid (by decide)
    have e1 := hearlier Field.wifiPassword (by decide)
    have e2 := hearlier Field.sensorApiLoginId (by decide)
    have e3 := hearlier Field.sensorApiPassword (by decide)
    have e4 := hearlier Field.sensorId1 (by decide)
    simp only [ConfigInput.field, Field.placeholder] at hf e0 e1 e2 e3 e4
    simp [load, Field.name, hf, e0, e1, e2, e3, e4]
  | sensorId3 =>
    have e0 := hearlier Field.wifiSsid (by decide)
    have e1 := hearlier Field.wifiPassword (by decide)
    have e2 := hearlier Field.sensorApiLoginId (by decide)
    have e3 := hearlier Field.sensorApiPassword (by decide)
    have e4 := hearlier Field.sensorId1 (by decide)
    have e5 := hearlier Field.sensorId2 (by decide)
    simp only [ConfigInput.field, Field.placeholder] at hf e0 e1 e2 e3 e4 e5
    simp [load, Field.name, hf, e0, e1, e2, e3, e4, e5]
  | telemetryWriteApiKey =>
    have e0 := hearlier Field.wifiSsid (by decide)
    have e1 := hearlier Field.wifiPassword (by decide)
    have e2 := hearlier Field.sensorApiLoginId (by decide)
    have e3 := hearlier Field.sensorApiPassword (by decide)
    have e4 := hearlier Field.sensorId1 (by decide)
    have e5 := hearlier Field.sensorId2 (by decide)
    have e6 := hearlier Field.sensorId3 (by decide)
    simp only [ConfigInput.field, Field.placeholder] at hf e0 e1 e2 e3 e4 e5 e6
    simp [load, Field.name, hf, e0, e1, e2, e3, e4, e5, e6]

/-- Claim C1, witness: at the concrete input whose WiFi SSID holds the
placeholder "your WiFi SSID", the amended theorem applies and `load` fails
with `PlaceholderValueDetected "wifiSsid"`. -/
theorem c1_witness :
    c1PlaceholderInput.field Field.wifiSsid = Field.placeholder Field.wifiSsid ∧
    load c1PlaceholderInput = .error (.PlaceholderValueDetected (Field.name Field.wifiSsid)) :=
  ⟨rfl, c1_placeholder_detected c1PlaceholderInput Field.wifiSsid rfl
    (by intro g h; cases g <;> exact absurd h (by decide))⟩


/-- Claim C2, counterexample to the statement as given: with the WiFi SSID
holding its placeholder and the sensor-API login ID empty, the login ID is
a required field supplied empty, yet `load` does not fail with
`EmptyRequiredField` naming it — the placeholder check on `wifiSsid`
fires first. -/
theorem c2_counterexample :
    Field.required Field.sensorApiLoginId = true ∧
    c2Bad.field Field.sensorApiLoginId = "" ∧
    load c2Bad ≠ .error (.EmptyRequiredField (Field.name Field.sensorApiLoginId)) ∧
    load c2Bad = .error (.PlaceholderValueDetected "wifiSsid") := by
  refine ⟨rfl, rfl, ?_, ?_⟩ <;> simp [load, c2Bad, Field.name]

/-- Claim C2 (amended): if a required text field is supplied empty, no
field holds its documented placeholder, and no earlier required field is
empty, then `load` fails with `EmptyRequiredField` naming that field. -/
theorem c2_empty_detected (i : ConfigInput) (f : Field)
    (hreq : f.required = true)
    (hf : i.field f = "")
    (hplace : ∀ g : Field, i.field g ≠ g.placeholder)
    (hearlier : ∀ g : Field, g.required = true → g.idx < f.idx → i.field g ≠ "") :
    load i = .error (.EmptyRequiredField (f.name)) := by
  have p0 := hplace Field.wifiSsid
  have p1 := hplace Field.wifiPassword
  have p2 := hplace Field.sensorApiLoginId
  have p3 := hplace Field.sensorApiPassword
  have p4 := hplace Field.sensorId1
  have p5 := hplace Field.sensorId2
  have p6 := hplace Field.sensorId3
  have p7 := hplace Field.telemetryWriteApiKey
  simp only [ConfigInput.field, Field.placeholder, SECRET_WIFISSID, SECRET_WIFIPASS,
    SECRET_SP_LOGINID, SECRET_SP_PASS, SECRET_SP_SENSOR1_ID, SECRET_SP_SENSOR2_ID,
    SECRET_SP_SENSOR3_ID, SECRET_TS_WRITE_APIKEY] at p0 p1 p2 p3 p4 p5 p6 p7
  cases f with
  | wifiSsid =>
    simp only [ConfigInput.field] at hf
    simp [load, Field.name, hf, p0, p1, p2, p3, p4, p5, p6, p7, SECRET_WIFISSID, SECRET_WIFIPASS, SECRET_SP_LOGINID, SECRET_SP_PASS, SECRET_SP_SENSOR1_ID, SECRET_SP_SENSOR2_ID, SECRET_SP_SENSOR3_ID, SECRET_TS_WRITE_APIKEY]
  | wifiPassword =>
    exact absurd hreq (by decide)
  | sensorApiLoginId =>
    have q0 := hearlier Field.wifiSsid rfl (by decide)
    simp only [ConfigInput.field] at hf q0
    simp [load, Field.name, hf, p0, p1, p2, p3, p4, p5, p6, p7, q0, SECRET_WIFISSID, SECRET_WIFIPASS, SECRET_SP_LOGINID, SECRET_SP_PASS, SECRET_SP_SENSOR1_ID, SECRET_SP_SENSOR2_ID, SECRET_SP_SENSOR3_ID, SECRET_TS_WRITE_APIKEY]
  | sensorApiPassword =>
    have q0 := hearlier Field.wifiSsid rfl (by decide)
    have q1 := hearlier Field.sensorApiLoginId rfl (by decide)
    simp only [ConfigInput.field] at hf q0 q1
    simp [load, Field.name, hf, p0, p1, p2, p3, p4, p5, p6, p7, q0, q1, SECRET_WIFISSID, SECRET_WIFIPASS, SECRET_SP_LOGINID, SECRET_SP_PASS, SECRET_SP_SENSOR1_ID, SECRET_SP_SENSOR2_ID, SECRET_SP_SENSOR3_ID, SECRET_TS_WRITE_APIKEY]
  | sensorId1 =>
    have q0 := hearlier Field.wifiSsid rfl (by decide)
    have q1 := hearlier Field.sensorApiLoginId rfl (by decide)
    have q2 := hearlier Field.sensorApiPassword rfl (by decide)
    simp only [ConfigInput.field] at hf q0 q1 q2
    simp [load, Field.name, hf, p0, p1, p2, p3, p4, p5, p6, p7, q0, q1, q2, SECRET_WIFISSID, SECRET_WIFIPASS, SECRET_SP_LOGINID, SECRET_SP_PASS, SECRET_SP_SENSOR1_ID, SECRET_SP_SENSOR2_ID, SECRET_SP_SENSOR3_ID, SECRET_TS_WRITE_APIKEY]
  | sensorId2 =>
    have q0 := hearlier Field.wifiSsid rfl (by decide)
    have q1 := hearlier Field.sensorApiLoginId rfl (by decide)
    have q2 := hearlier Field.sensorApiPassword rfl (by decide)
    have q3 := hearlier Field.sensorId1 rfl (by decide)
    simp only [ConfigInput.field] at hf q0 q1 q2 q3
    simp [load, Field.name, hf, p0, p1, p2, p3, p4, p5, p6, p7, q0, q1, q2, q3, SECRET_WIFISSID, SECRET_WIFIPASS, SECRET_SP_LOGINID, SECRET_SP_PASS, SECRET_SP_SENSOR1_ID, SECRET_SP_SENSOR2_ID, SECRET_SP_SENSOR3_ID, SECRET_TS_WRITE_APIKEY]
  | sensorId3 =>
    have q0 := hearlier Field.wifiSsid rfl (by decide)
    have q1 := hearlier Field.sensorApiLoginId rfl (by decide)
    have q2 := hearlier Field.sensorApiPassword rfl (by decide)
    have q3 := hearlier Field.sensorId1 rfl (by decide)
    have q4 := hearlier Field.sensorId2 rfl (by decide)
    simp only [ConfigInput.field] at hf q0 q1 q2 q3 q4
    simp [load, Field.name, hf, p0, p1, p2, p3, p4, p5, p6, p7, q0, q1, q2, q3, q4, SECRET_WIFISSID, SECRET_WIFIPASS, SECRET_SP_LOGINID, SECRET_SP_PASS, SECRET_SP_SENSOR1_ID, SECRET_SP_SENSOR2_ID, SECRET_SP_SENSOR3_ID, SECRET_TS_WRITE_APIKEY]
  | telemetryWriteApiKey =>
    have q0 := hearlier Field.wifiSsid rfl (by decide)
    have q1 := hearlier Field.sensorApiLoginId rfl (by decide)
    have q2 := hearlier Field.sensorApiPassword rfl (by decide)
    have q3 := hearlier Field.sensorId1 rfl (by decide)
    have q4 := hearlier Field.sensorId2 rfl (by decide)
    have q5 := hearlier Field.sensorId3 rfl (by decide)
    simp only [ConfigInput.field] at hf q0 q1 q2 q3 q4 q5
    simp [load, Field.name, hf, p0, p1, p2, p3, p4, p5, p6, p7, q0, q1, q2, q3, q4, q5, SECRET_WIFISSID, SECRET_WIFIPASS, SECRET_SP_LOGINID, SECRET_SP_PASS, SECRET_SP_SENSOR1_ID, SECRET_SP_SENSOR2_ID, SECRET_SP_SENSOR3_ID, SECRET_TS_WRITE_APIKEY]

/-- Claim C2, witness: at the concrete input whose WiFi SSID is the empty
string and whose fields hold no placeholder, the amended theorem applies
and `load` fails with `EmptyRequiredField "wifiSsid"`. -/
theorem c2_witness :
    Field.required Field.wifiSsid = true ∧
    c2EmptyInput.field Field.wifiSsid = "" ∧
    load c2EmptyInput = .error (.EmptyRequiredField (Field.name Field.wifiSsid)) :=
  ⟨rfl, rfl, c2_empty_detected c2EmptyInput Field.wifiSsid rfl rfl
    (by intro g; cases g <;> decide)
    (by intro g hg h; cases g <;> exact absurd h (by decide))⟩


/-- Claim C3, counterexample to the statement as given: with channel ID
zero but the WiFi SSID holding its placeholder, `load` does not fail with
`InvalidNumericField "telemetryChannelId"` — the placeholder check on
`wifiSsid` fires first. -/
theorem c3_counterexample :
    c3Bad.telemetryChannelId = 0 ∧
    load c3Bad ≠ .error (.InvalidNumericField "telemetryChannelId") ∧
    load c3Bad = .error (.PlaceholderValueDetected "wifiSsid") := by
  refine ⟨rfl, ?_, ?_⟩ <;> simp [load, c3Bad]

/-- Claim C3 (amended): if no field holds its documented placeholder, no
required field is empty, and the supplied telemetry channel ID is at most
zero, then `load` fails with `InvalidNumericField "telemetryChannelId"`;
in particular this holds at channel ID zero. -/
theorem c3_invalid_channel (i : ConfigInput)
    (hplace : ∀ g : Field, i.field g ≠ g.placeholder)
    (hempty : ∀ g : Field, g.required = true → i.field g ≠ "")
    (hc : i.telemetryChannelId ≤ 0) :
    load i = .error (.InvalidNumericField "telemetryChannelId") := by
  have p0 := hplace Field.wifiSsid
  have p1 := hplace Field.wifiPassword
  have p2 := hplace Field.sensorApiLoginId
  have p3 := hplace Field.sensorApiPassword
  have p4 := hplace Field.sensorId1
  have p5 := hplace Field.sensorId2
  have p6 := hplace Field.sensorId3
  have p7 := hplace Field.telemetryWriteApiKey
  have q0 := hempty Field.wifiSsid rfl
  have q1 := hempty Field.sensorApiLoginId rfl
  have q2 := hempty Field.sensorApiPassword rfl
  have q3 := hempty Field.sensorId1 rfl
  have q4 := hempty Field.sensorId2 rfl
  have q5 := hempty Field.sensorId3 rfl
  have q6 := hempty Field.telemetryWriteApiKey rfl
  simp only [ConfigInput.field, Field.placeholder] at p0 p1 p2 p3 p4 p5 p6 p7 q0 q1 q2 q3 q4 q5 q6
  simp [load, p0, p1, p2, p3, p4, p5, p6, p7, q0, q1, q2, q3, q4, q5, q6, hc]

/-- Claim C3, witness: at the concrete input with valid text fields and
channel ID zero, the amended theorem applies and `load` returns
`InvalidNumericField "telemetryChannelId"`. -/
theorem c3_witness :
    c3ZeroInput.telemetryChannelId = 0 ∧
    load c3ZeroInput = .error (.InvalidNumericField "telemetryChannelId") :=
  ⟨rfl, c3_invalid_channel c3ZeroInput
    (by intro g; cases g <;> decide)
    (by intro g hg; cases g <;> decide)
    (by decide)⟩

/-- Claim C9: every shipped string constant of secrets.h equals its
documented placeholder string, and `load` applied to the shipped constants
— whatever numeric reading is taken for the non-numeric channel token —
fails with `PlaceholderValueDetected` for the first such field, `wifiSsid`. -/
theorem c9_shipped_constants_are_placeholders :
    SECRET_WIFISSID = "your WiFi SSID" ∧
    SECRET_WIFIPASS = "your WiFi password" ∧
    SECRET_SP_LOGINID = "your SensorPush API login ID" ∧
    SECRET_SP_PASS = "your SensorPush API password" ∧
    SECRET_SP_SENSOR1_ID = "your SensorPush Sensor 1 ID" ∧
    SECRET_SP_SENSOR2_ID = "your SensorPush Sensor 2 ID" ∧
    SECRET_SP_SENSOR3_ID = "your SensorPush Sensor 3 ID" ∧
    SECRET_TS_WRITE_APIKEY = "your ThingSpeak write API key" ∧
    ∀ c : Int, load (shippedInput c) = .error (.PlaceholderValueDetected "wifiSsid") := by
  refine ⟨rfl, rfl, rfl, rfl, rfl, rfl, rfl, rfl, fun c => ?_⟩
  simp [load, shippedInput]

/-- Claim C10: the shipped channel-ID constant expands to the character
sequence "<your ThingSpeak channel number>", which does not denote an
unsigned integer, so the positive-channel validation cannot be satisfied
by the shipped value. -/
theorem c10_shipped_channel_not_numeric :
    channelTokenNumeric SECRET_TS_CHANNEL_ID_raw = none ∧
    channelTokenPositive SECRET_TS_CHANNEL_ID_raw = false := by
  constructor <;> decide

/-- Claim C4: on an input whose fields are all non-placeholder and
non-empty with a positive channel ID, `load` succeeds with the record
carrying exactly the supplied values, `get` then returns that record, and
every field of the record equals the corresponding input (round-trip
identity). -/
theorem c4_roundtrip (i : ConfigInput)
    (hvals : ∀ g : Field, i.field g ≠ g.placeholder ∧ i.field g ≠ "")
    (hc : 0 < i.telemetryChannelId) :
    load i = .ok (recordOf i) ∧
    (∀ s : ProviderState, get (loadState i s).1 = some (recordOf i)) ∧
    (recordOf i).wifiSsid = i.wifiSsid ∧
    (recordOf i).wifiPassword = i.wifiPassword ∧
    (recordOf i).sensorApiLoginId = i.sensorApiLoginId ∧
    (recordOf i).sensorApiPassword = i.sensorApiPassword ∧
    (recordOf i).sensorId1 = i.sensorId1 ∧
    (recordOf i).sensorId2 = i.sensorId2 ∧
    (recordOf i).sensorId3 = i.sensorId3 ∧
    (recordOf i).telemetryChannelId = i.telemetryChannelId ∧
    (recordOf i).telemetryWriteApiKey = i.telemetryWriteApiKey := by
  have p0 := (hvals Field.wifiSsid).1
  have p1 := (hvals Field.wifiPassword).1
  have p2 := (hvals Field.sensorApiLoginId).1
  have p3 := (hvals Field.sensorApiPassword).1
  have p4 := (hvals Field.sensorId1).1
  have p5 := (hvals Field.sensorId2).1
  have p6 := (hvals Field.sensorId3).1
  have p7 := (hvals Field.telemetryWriteApiKey).1
  have q0 := (hvals Field.wifiSsid).2
  have q1 := (hvals Field.sensorApiLoginId).2
  have q2 := (hvals Field.sensorApiPassword).2
  have q3 := (hvals Field.sensorId1).2
  have q4 := (hvals Field.sensorId2).2
  have q5 := (hvals Field.sensorId3).2
  have q6 := (hvals Field.telemetryWriteApiKey).2
  simp only [ConfigInput.field, Field.placeholder] at p0 p1 p2 p3 p4 p5 p6 p7 q0 q1 q2 q3 q4 q5 q6
  have hcc : ¬ i.telemetryChannelId ≤ 0 := not_le.mpr hc
  have hload : load i = .ok (recordOf i) := by
    simp [load, p0, p1, p2, p3, p4, p5, p6, p7, q0, q1, q2, q3, q4, q5, q6, hcc]
  exact ⟨hload, fun s => by simp [loadState, hload, get],
    rfl, rfl, rfl, rfl, rfl, rfl, rfl, rfl, rfl⟩

/-- Claim C4, witness: the documented scenario — SSID "HomeNet", password
"pass1234", all other fields valid — loads successfully and `get` yields a
record whose SSID is "HomeNet". -/
theorem c4_witness :
    load c4GoodInput = .ok (recordOf c4GoodInput) ∧
    get (loadState c4GoodInput initialState).1 = some (recordOf c4GoodInput) ∧
    (recordOf c4GoodInput).wifiSsid = "HomeNet" := by
  have h := c4_roundtrip c4GoodInput
    (by intro g; cases g <;> exact ⟨by decide, by decide⟩) (by decide)
  exact ⟨h.1, h.2.1 initialState, rfl⟩

/-- Claim C5: `load` returns the first failed check in the documented
field/check order (its result is the head of the ordered list of failed
checks), and on failure the provider's state is unchanged, so from the
initial state `get` yields no record at all — no partial configuration is
ever exposed. -/
theorem c5_first_error_no_exposure :
    (∀ i : ConfigInput, load i = firstOutcome i) ∧
    (∀ (i : ConfigInput) (s : ProviderState) (e : ConfigError),
      load i = .error e → (loadState i s).1 = s) ∧
    (∀ (i : ConfigInput) (e : ConfigError),
      load i = .error e → get (loadState i initialState).1 = none) := by
  refine ⟨?_, ?_, ?_⟩
  · intro i
    have n1 : ¬("" : String) = SECRET_WIFISSID := by decide
    have n2 : ¬("" : String) = SECRET_WIFIPASS := by decide
    have n3 : ¬("" : String) = SECRET_SP_LOGINID := by decide
    have n4 : ¬("" : String) = SECRET_SP_PASS := by decide
    have n5 : ¬("" : String) = SECRET_SP_SENSOR1_ID := by decide
    have n6 : ¬("" : String) = SECRET_SP_SENSOR2_ID := by decide
    have n7 : ¬("" : String) = SECRET_SP_SENSOR3_ID := by decide
    have n8 : ¬("" : String) = SECRET_TS_WRITE_APIKEY := by decide
    by_cases h1 : i.wifiSsid = SECRET_WIFISSID
    · simp [load, firstOutcome, checkErrors, h1]
    by_cases h2 : i.wifiPassword = SECRET_WIFIPASS
    · simp [load, firstOutcome, checkErrors, h1, h2]
    by_cases h3 : i.sensorApiLoginId = SECRET_SP_LOGINID
    · simp [load, firstOutcome, checkErrors, h1, h2, h3]
    by_cases h4 : i.sensorApiPassword = SECRET_SP_PASS
    · simp [load, firstOutcome, checkErrors, h1, h2, h3, h4]
    by_cases h5 : i.sensorId1 = SECRET_SP_SENSOR1_ID
    · simp [load, firstOutcome, checkErrors, h1, h2, h3, h4, h5]
    by_cases h6 : i.sensorId2 = SECRET_SP_SENSOR2_ID
    · simp [load, firstOutcome, checkErrors, h1, h2, h3, h4, h5, h6]
    by_cases h7 : i.sensorId3 = SECRET_SP_SENSOR3_ID
    · simp [load, firstOutcome, checkErrors, h1, h2, h3, h4, h5, h6, h7]
    by_cases h8 : i.telemetryWriteApiKey = SECRET_TS_WRITE_APIKEY
    · simp [load, firstOutcome, checkErrors, h1, h2, h3, h4, h5, h6, h7, h8]
    by_cases h9 : i.wifiSsid = ""
    · simp [load, firstOutcome, checkErrors, h1, h2, h3, h4, h5, h6, h7, h8, h9, n1, n2, n3, n4, n5, n6, n7, n8]
    by_cases h10 : i.sensorApiLoginId = ""
    · simp [load, firstOutcome, checkErrors, h1, h2, h3, h4, h5, h6, h7, h8, h9, h10, n1, n2, n3, n4, n5, n6, n7, n8]
    by_cases h11 : i.sensorApiPassword = ""
    · simp [load, firstOutcome, checkErrors, h1, h2, h3, h4, h5, h6, h7, h8, h9, h10, h11, n1, n2, n3, n4, n5, n6, n7, n8]
    by_cases h12 : i.sensorId1 = ""
    · simp [load, firstOutcome, checkErrors, h1, h2, h3, h4, h5, h6, h7, h8, h9, h10, h11,
        h12, n1, n2, n3, n4, n5, n6, n7, n8]
    by_cases h13 : i.sensorId2 = ""
    · simp [load, firstOutcome, checkErrors, h1, h2, h3, h4, h5, h6, h7, h8, h9, h10, h11,
        h12, h13, n1, n2, n3, n4, n5, n6, n7, n8]
    by_cases h14 : i.sensorId3 = ""
    · simp [load, firstOutcome, checkErrors, h1, h2, h3, h4, h5, h6, h7, h8, h9, h10, h11,
        h12, h13, h14, n1, n2, n3, n4, n5, n6, n7, n8]
    by_cases h15 : i.telemetryWriteApiKey = ""
    · simp [load, firstOutcome, checkErrors, h1, h2, h3, h4, h5, h6, h7, h8, h9, h10, h11,
        h12, h13, h14, h15, n1, n2, n3, n4, n5, n6, n7, n8]
    by_cases h16 : i.telemetryChannelId ≤ 0
    · simp [load, firstOutcome, checkErrors, h1, h2, h3, h4, h5, h6, h7, h8, h9, h10, h11,
        h12, h13, h14, h15, h16]
    · simp [load, firstOutcome, checkErrors, recordOf, h1, h2, h3, h4, h5, h6, h7, h8, h9,
        h10, h11, h12, h13, h14, h15, h16]
  · intro i s e h
    simp [loadState, h]
  · intro i e h
    simp [loadState, h, get, initialState]

/-- Claim C5, witness: at a concrete failing input, `load` agrees with the
head of the ordered check list, the provider's state is unchanged, and
`get` from the initial state yields no record. -/
theorem c5_witness :
    load c5Bad = firstOutcome c5Bad ∧
    (loadState c5Bad initialState).1 = initialState ∧
    get (loadState c5Bad initialState).1 = none :=
  ⟨c5_first_error_no_exposure.1 c5Bad,
   c5_first_error_no_exposure.2.1 c5Bad initialState
     (.PlaceholderValueDetected "wifiSsid") (by simp [load, c5Bad]),
   c5_first_error_no_exposure.2.2 c5Bad
     (.PlaceholderValueDetected "wifiSsid") (by simp [load, c5Bad])⟩

/-- Claim C6: after construction no operation of the component changes the
provider's state — every collaborator read leaves the state exactly as it
was, and any sequence of reads observes the same record at every read. -/
theorem c6_record_immutable (s : ProviderState) (ops : List ReadOp) :
    (∀ op : ReadOp, (applyRead op s).1 = s) ∧
    runReads s ops = ops.map (fun _ => get s) := by
  constructor
  · intro op; cases op; rfl
  · induction ops with
    | nil => rfl
    | cons op ops ih => cases op; simpa [runReads, applyRead] using ih

/-- Claim C7: `load` run inside the world has no side effects — the world,
and in particular its network and I/O logs, is left unchanged, and the
returned value depends on the input and embedded constants alone. -/
theorem c7_load_no_side_effects (i : ConfigInput) (w v : World) :
    (loadWorld i w).1 = w ∧
    (loadWorld i w).1.networkLog = w.networkLog ∧
    (loadWorld i w).1.ioLog = w.ioLog ∧
    (loadWorld i w).2 = load i ∧
    (loadWorld i w).2 = (loadWorld i v).2 :=
  ⟨rfl, rfl, rfl, rfl, rfl⟩

/-- A record produced by a successful `load` satisfies every validation
condition. -/
theorem load_ok_validated (i : ConfigInput) (r : ConfigurationRecord)
    (h : load i = .ok r) : validated r = true := by
  have n1 : ¬("" : String) = SECRET_WIFISSID := by decide
  have n2 : ¬("" : String) = SECRET_WIFIPASS := by decide
  have n3 : ¬("" : String) = SECRET_SP_LOGINID := by decide
  have n4 : ¬("" : String) = SECRET_SP_PASS := by decide
  have n5 : ¬("" : String) = SECRET_SP_SENSOR1_ID := by decide
  have n6 : ¬("" : String) = SECRET_SP_SENSOR2_ID := by decide
  have n7 : ¬("" : String) = SECRET_SP_SENSOR3_ID := by decide
  have n8 : ¬("" : String) = SECRET_TS_WRITE_APIKEY := by decide
  by_cases h1 : i.wifiSsid = SECRET_WIFISSID
  · simp [load, h1] at h
  by_cases h2 : i.wifiPassword = SECRET_WIFIPASS
  · simp [load, h1, h2] at h
  by_cases h3 : i.sensorApiLoginId = SECRET_SP_LOGINID
  · simp [load, h1, h2, h3] at h
  by_cases h4 : i.sensorApiPassword = SECRET_SP_PASS
  · simp [load, h1, h2, h3, h4] at h
  by_cases h5 : i.sensorId1 = SECRET_SP_SENSOR1_ID
  · simp [load, h1, h2, h3, h4, h5] at h
  by_cases h6 : i.sensorId2 = SECRET_SP_SENSOR2_ID
  · simp [load, h1, h2, h3, h4, h5, h6] at h
  by_cases h7 : i.sensorId3 = SECRET_SP_SENSOR3_ID
  · simp [load, h1, h2, h3, h4, h5, h6, h7] at h
  by_cases h8 : i.telemetryWriteApiKey = SECRET_TS_WRITE_APIKEY
  · simp [load, h1, h2, h3, h4, h5, h6, h7, h8] at h
  by_cases h9 : i.wifiSsid = ""
  · simp [load, h1, h2, h3, h4, h5, h6, h7, h8, h9, n1, n2, n3, n4, n5, n6, n7, n8] at h
  by_cases h10 : i.sensorApiLoginId = ""
  · simp [load, h1, h2, h3, h4, h5, h6, h7, h8, h9, h10, n1, n2, n3, n4, n5, n6,
      n7, n8] at h
  by_cases h11 : i.sensorApiPassword = ""
  · simp [load, h1, h2, h3, h4, h5, h6, h7, h8, h9, h10, h11, n1, n2, n3, n4, n5,
      n6, n7, n8] at h
  by_cases h12 : i.sensorId1 = ""
  · simp [load, h1, h2, h3, h4, h5, h6, h7, h8, h9, h10, h11, h12, n1, n2, n3, n4,
      n5, n6, n7, n8] at h
  by_cases h13 : i.sensorId2 = ""
  · simp [load, h1, h2, h3, h4, h5, h6, h7, h8, h9, h10, h11, h12, h13, n1, n2, n3,
      n4, n5, n6, n7, n8] at h
  by_cases h14 : i.sensorId3 = ""
  · simp [load, h1, h2, h3, h4, h5, h6, h7, h8, h9, h10, h11, h12, h13, h14, n1,
      n2, n3, n4, n5, n6, n7, n8] at h
  by_cases h15 : i.telemetryWriteApiKey = ""
  · simp [load, h1, h2, h3, h4, h5, h6, h7, h8, h9, h10, h11, h12, h13, h14, h15,
      n1, n2, n3, n4, n5, n6, n7, n8] at h
  by_cases h16 : i.telemetryChannelId ≤ 0
  · simp [load, h1, h2, h3, h4, h5, h6, h7, h8, h9, h10, h11, h12, h13, h14, h15,
      h16] at h
  simp only [load, h1, h2, h3, h4, h5, h6, h7, h8, h9, h10, h11, h12, h13, h14,
    h15, h16, if_false, Except.ok.injEq] at h
  subst h
  simp only [validated, recordOf, Bool.and_eq_true, bne_iff_ne, ne_eq,
    decide_eq_true_eq]
  exact ⟨⟨⟨⟨⟨⟨⟨⟨⟨⟨⟨⟨⟨⟨⟨h1, h2⟩, h3⟩, h4⟩, h5⟩, h6⟩, h7⟩, h8⟩, h9⟩, h10⟩,
    h11⟩, h12⟩, h13⟩, h14⟩, h15⟩, by omega⟩

/-- Claim C8: in any reachable provider state, a record observed through
`get` can only have come from a successful `load`, and is validated — the
accessor never observes an unvalidated or placeholder-holding record. -/
theorem c8_record_only_from_load (s : ProviderState) (hs : Reachable s) :
    ∀ r : ConfigurationRecord, get s = some r →
      (∃ i : ConfigInput, load i = .ok r) ∧ validated r = true := by
  induction hs with
  | init =>
    intro r hr
    simp [get, initialState] at hr
  | loadStep i hs ih =>
    intro r hr
    cases hload : load i with
    | error e =>
      simp only [loadState, hload] at hr
      exact ih r hr
    | ok r2 =>
      simp only [loadState, hload, get, Option.some.injEq] at hr
      subst hr
      exact ⟨⟨i, hload⟩, load_ok_validated i r2 hload⟩
  | readStep op hs ih =>
    intro r hr
    cases op
    simp only [applyRead] at hr
    exact ih r hr

/-- Claim C8, witness: the state reached by a successful `load` of a
concrete valid input is reachable, `get` observes the loaded record there,
and the theorem yields its origin and validity. -/
theorem c8_witness :
    (∃ i : ConfigInput, load i = .ok (recordOf c8GoodInput)) ∧
    validated (recordOf c8GoodInput) = true :=
  c8_record_only_from_load (loadState c8GoodInput initialState).1
    (Reachable.loadStep c8GoodInput Reachable.init)
    (recordOf c8GoodInput) (by
      simp [loadState, load, get, c8GoodInput, recordOf, SECRET_WIFISSID,
        SECRET_WIFIPASS, SECRET_SP_LOGINID, SECRET_SP_PASS, SECRET_SP_SENSOR1_ID,
        SECRET_SP_SENSOR2_ID, SECRET_SP_SENSOR3_ID, SECRET_TS_WRITE_APIKEY])

end WeatherSense
